import Mathlib

/- Shallow embedding of the quicssh-rs sources (src/main.rs, src/client.rs,
   src/server.rs): a QUIC-tunneled TCP relay. Pure Rust fragments become Lean
   functions; results of external I/O calls (DNS resolution, QUIC reads,
   signal registration) become explicit parameters of the corresponding
   inductive result types, exactly mirroring the match arms of the source. -/

namespace QuicsshRs

/-- A socket address: host string plus port number. -/
structure SockAddr where
  host : String
  port : Nat
deriving DecidableEq, Repr

/-- The hard-coded fallback SocketAddr::new(Ipv4Addr::LOCALHOST, 22) from
    server.rs line 126. -/
def localhostSsh : SockAddr := ⟨"127.0.0.1", 22⟩

/-- Association-list model of HashMap.get on the proxy table from the TOML
    config (server.rs 90-94). Keys are unique in a HashMap, so first-match
    lookup is faithful. String equality is the exact equality HashMap uses. -/
def tableLookup (key : String) : List (String × SockAddr) → Option SockAddr
  | [] => none
  | (k, v) :: rest => if k = key then some v else tableLookup key rest

/-- server.rs 120-127: the default proxy target is the config entry for the
    key "default" when present, otherwise the --proxy-to option when present,
    otherwise 127.0.0.1:22. -/
def default_proxy (proxy : List (String × SockAddr)) (proxy_to : Option SockAddr) : SockAddr :=
  match tableLookup "default" proxy with
  | some sock => sock
  | none => proxy_to.getD localhostSsh

/-- server.rs 163: conf.proxy.get(sni).unwrap_or(default_proxy) — the
    downstream address chosen for one accepted connection. -/
def proxy_lookup (proxy : List (String × SockAddr)) (dflt : SockAddr) (sni : String) : SockAddr :=
  (tableLookup sni proxy).getD dflt

/-- An IPv4 address, four octets. -/
structure Ipv4 where
  a : Nat
  b : Nat
  c : Nat
  d : Nat
deriving DecidableEq, Repr

/-- Dotted-decimal rendering of an IPv4 address, the model of
    conn.remote_address().ip().to_string() in server.rs 160. -/
def Ipv4.render (ip : Ipv4) : String :=
  toString ip.a ++ "." ++ toString ip.b ++ "." ++ toString ip.c ++ "." ++ toString ip.d

/-- server.rs 154-160: the routing key is the TLS server_name when the
    handshake carried one, otherwise the string form of the peer IP. -/
def routing_sni (server_name : Option String) (peer_ip : Ipv4) : String :=
  server_name.getD peer_ip.render

/-- server.rs 153-163 composed: the downstream address the spawned
    handle_connection task dials for a connection with the given handshake
    server_name and peer address. -/
def accept_route (proxy : List (String × SockAddr)) (dflt : SockAddr)
    (server_name : Option String) (peer_ip : Ipv4) : SockAddr :=
  proxy_lookup proxy dflt (routing_sni server_name peer_ip)

/-- Spec section 4.3, step list for the effective default downstream address:
    first the config entry for "default", else the --proxy-to value, else
    127.0.0.1:22. Written from the words of the spec for comparison with
    default_proxy. -/
def spec_effective_default (proxy : List (String × SockAddr)) (proxy_to : Option SockAddr) : SockAddr :=
  match tableLookup "default" proxy with
  | some d => d
  | none =>
    match proxy_to with
    | some p => p
    | none => ⟨"127.0.0.1", 22⟩

/-- Spec section 4.3 per-connection lookup: route the SNI to its table entry
    when one exists, else to the effective default. Written from the words of
    the spec for comparison with proxy_lookup. -/
def spec_route (proxy : List (String × SockAddr)) (proxy_to : Option SockAddr) (sni : String) : SockAddr :=
  match tableLookup sni proxy with
  | some a => a
  | none => spec_effective_default proxy proxy_to

/-- Example table entry used by concrete witnesses below. -/
def alphaAddr : SockAddr := ⟨"10.0.0.5", 22⟩

/-- Result of running a subcommand, main.rs 91-114: the run functions return
    Result of unit and boxed error, modelled as ok or an error message. -/
inductive RunResult where
  | ok : RunResult
  | error : String → RunResult
deriving DecidableEq, Repr

/-- main.rs 91-114: main matches the result of server::run or client::run,
    logs the error in the Err arm and does nothing else; main returns unit in
    every branch, so the process exit status is 0 whether or not the run
    function reported an error. -/
def main_exit_code (r : RunResult) : Nat :=
  match r with
  | .ok => 0
  | .error _ => 0

/-- client.rs 137-139: the client rejects every URL whose scheme is not quic
    with the error string below, before any network activity. -/
def scheme_check (scheme : String) : Except String Unit :=
  if scheme = "quic" then Except.ok () else Except.error "URL scheme must be quic"

/-- Outcome of url.socket_addrs as the client observes it: an io error, or a
    resolved (possibly empty) list of socket addresses. -/
inductive ResolveResult where
  | ioError : ResolveResult
  | resolved : List SockAddr → ResolveResult
deriving DecidableEq, Repr

/-- What the client does with the resolution outcome. -/
inductive ResolveOutcome where
  | unresolvedHost : ResolveOutcome
  | panicked : ResolveOutcome
  | remote : SockAddr → ResolveOutcome
deriving DecidableEq, Repr

/-- client.rs 144-149: a resolver error is mapped to the unresolved-host
    failure and returned; on success the code indexes sock_list[0], which
    panics when the resolved list is empty and otherwise yields the first
    address with no fallback iteration. -/
def resolve_remote (r : ResolveResult) : ResolveOutcome :=
  match r with
  | .ioError => .unresolvedHost
  | .resolved [] => .panicked
  | .resolved (a :: _) => .remote a

/-- client.rs 145: socket_addrs is called with the default-port closure
    returning 4433; the quic scheme has no known default port, so the port
    used is the URL port when present, else 4433. -/
def effective_port (url_port : Option Nat) : Nat :=
  url_port.getD 4433

/-- Outcome of endpoint.connect and of awaiting the handshake at
    client.rs 178: the connect call itself can fail, the handshake can fail,
    or the connection is established. -/
inductive ConnectResult where
  | connectError : ConnectResult
  | handshakeError : ConnectResult
  | connected : ConnectResult
deriving DecidableEq, Repr

/-- How the surrounding function observes client.rs 178. -/
inductive ConnectOutcome where
  | panicked : ConnectOutcome
  | errorResult : String → ConnectOutcome
  | proceeded : ConnectOutcome
deriving DecidableEq, Repr

/-- client.rs 178: endpoint.connect(remote, sni).unwrap().await.unwrap() —
    both failure paths go through unwrap, which panics; no error value is
    returned to the caller. -/
def connect_step (r : ConnectResult) : ConnectOutcome :=
  match r with
  | .connectError => .panicked
  | .handshakeError => .panicked
  | .connected => .proceeded

/-- One result of recv.read on the QUIC stream, client.rs 202. In quinn,
    Ok(None) is returned when the peer finished the stream (EOF); Ok(Some n)
    delivers n bytes; Err is a read error. -/
inductive ReadEvent where
  | finished : ReadEvent
  | chunk : Nat → ReadEvent
  | readError : ReadEvent
deriving DecidableEq, Repr

/-- Result of writer.write_all to buffered stdout, client.rs 211. -/
inductive WriteResult where
  | wrote : WriteResult
  | writeError : WriteResult
deriving DecidableEq, Repr

/-- Whether one pass of the reader loop body loops again or returns. -/
inductive StepResult where
  | loops : StepResult
  | halts : StepResult
deriving DecidableEq, Repr

/-- client.rs 200-229, one iteration of the reader loop: Ok(None) continues;
    Ok(Some n) writes to stdout and returns on write error, else flushes
    (a flush error is only logged) and continues; Err returns. -/
def reader_step (ev : ReadEvent) (stdout_write : WriteResult) : StepResult :=
  match ev with
  | .finished => .loops
  | .chunk _ =>
    match stdout_write with
    | .wrote => .loops
    | .writeError => .halts
  | .readError => .halts

/-- State of the reader task after consuming a finite prefix of read events. -/
inductive ReaderOutcome where
  | halted : ReaderOutcome
  | stillLooping : ReaderOutcome
deriving DecidableEq, Repr

/-- The reader loop run over a finite trace of read results paired with the
    stdout write result of that iteration. -/
def reader_run : List (ReadEvent × WriteResult) → ReaderOutcome
  | [] => .stillLooping
  | (ev, w) :: rest =>
    match reader_step ev w with
    | .loops => reader_run rest
    | .halts => .halted

/-- Result of registering the SIGHUP handler, client.rs 304. -/
inductive SignalReg where
  | registered : SignalReg
  | registrationFailed : SignalReg
deriving DecidableEq, Repr

/-- client.rs 300-316: the signal future matches the registration result; on
    Err it logs and returns at once, so the future is complete although no
    signal was ever delivered; on Ok it awaits stream.recv, completing only
    when a SIGHUP arrives. -/
def signal_thread_done_without_signal : SignalReg → Bool
  | .registered => false
  | .registrationFailed => true

/-- The three futures raced by the select in client.rs 269-273. -/
inductive ClientTask where
  | reader : ClientTask
  | writer : ClientTask
  | signalWaiter : ClientTask
deriving DecidableEq, Repr

/-- Application close data passed to connection.close. -/
structure CloseAction where
  errorCode : Nat
  reason : String
deriving DecidableEq, Repr

/-- client.rs 269-273: the arm bodies of the select. The reader and writer
    arms do nothing; only the signal arm calls connection.close with code 0
    and reason "signal HUP". -/
def select_arm_close : ClientTask → Option CloseAction
  | .signalWaiter => some ⟨0, "signal HUP"⟩
  | _ => none

/-- Modelled from the spec (section 4.2 step 7) and the quinn drop contract:
    after the select, run returns and drops the connection and endpoint, and
    dropping a quinn connection implicitly closes it with application error
    code 0 and an empty reason. -/
def drop_close : CloseAction := ⟨0, ""⟩

/-- The application close observed by the peer when the given task is the
    first of the three to complete: the explicit close of the select arm when
    there is one, else the implicit close on drop. -/
def effective_close (t : ClientTask) : CloseAction :=
  (select_arm_close t).getD drop_close

/-- Transport parameters of a quinn endpoint configuration, restricted to the
    fields the sources set. -/
structure TransportConfig where
  max_idle_timeout_ms : Option Nat
  keep_alive_interval_ms : Option Nat
  max_concurrent_uni_streams : Nat
  mtu_discovery : Bool
deriving DecidableEq, Repr

/-- quinn TransportConfig::default(): no idle timeout, no keep-alive, 100
    concurrent unidirectional streams, and MTU discovery off in this model. -/
def TransportConfig.base : TransportConfig :=
  ⟨none, none, 100, false⟩

/-- client.rs 44-53: enable_mtud_if_supported on linux and windows starts
    from the default transport config and turns on MTU discovery. -/
def enable_mtud_if_supported : TransportConfig :=
  { TransportConfig.base with mtu_discovery := true }

/-- client.rs 96-105: the client transport settings — MTU discovery where
    supported, then max_idle_timeout 60000 ms, then keep_alive_interval one
    second. -/
def configure_client_transport : TransportConfig :=
  let t0 := enable_mtud_if_supported
  let t1 := { t0 with max_idle_timeout_ms := some 60000 }
  { t1 with keep_alive_interval_ms := some 1000 }

/-- server.rs 58-71: the server transport settings — max_concurrent_uni_streams
    0, max_idle_timeout 60000 ms, keep_alive_interval one second, MTU
    discovery on linux and windows. -/
def configure_server_transport : TransportConfig :=
  let t0 := TransportConfig.base
  let t1 := { t0 with max_concurrent_uni_streams := 0 }
  let t2 := { t1 with max_idle_timeout_ms := some 60000 }
  let t3 := { t2 with keep_alive_interval_ms := some 1000 }
  { t3 with mtu_discovery := true }

/-- A transport configuration forbids unidirectional streams when its
    concurrency limit for them is zero. -/
def uni_streams_forbidden (t : TransportConfig) : Prop :=
  t.max_concurrent_uni_streams = 0

/-- Claim C1: the downstream address dialed for a session equals the route
    table entry for the SNI key when present, else the effective default
    (config "default" entry, else --proxy-to, else 127.0.0.1:22). -/
theorem route_correctness (proxy : List (String × SockAddr)) (proxy_to : Option SockAddr)
    (sni : String) :
    proxy_lookup proxy (default_proxy proxy proxy_to) sni = spec_route proxy proxy_to sni := by
  unfold proxy_lookup spec_route default_proxy spec_effective_default
  cases tableLookup sni proxy <;> cases tableLookup "default" proxy <;> cases proxy_to <;> rfl

/-- Claim C2, code evaluation: the client run function does report the bad
    scheme for an http URL as an error value, but main maps every error
    result of a subcommand to process exit status 0, so the process does not
    exit non-zero. -/
theorem bad_scheme_exit_status :
    scheme_check "http" = Except.error "URL scheme must be quic" ∧
    main_exit_code (RunResult.error "URL scheme must be quic") = 0 := by
  exact ⟨rfl, rfl⟩

/-- Claim C3, code evaluation: the reader loop treats the finished result of
    a read (EOF, the quinn Ok-None outcome) as loop-again, so after the peer
    finishes the stream the task is still looping after any number of
    consecutive EOF reads; it never terminates cleanly on EOF. -/
theorem reader_spins_on_eof (k : Nat) :
    reader_step ReadEvent.finished WriteResult.wrote = StepResult.loops ∧
    reader_run (List.replicate k (ReadEvent.finished, WriteResult.wrote)) =
      ReaderOutcome.stillLooping := by
  refine ⟨rfl, ?_⟩
  induction k with
  | zero => rfl
  | succ n ih => simpa [List.replicate_succ, reader_run, reader_step] using ih

/-- Claim C4, code evaluation: when signal registration fails the signal
    future completes immediately with no signal delivered, and the select arm
    for the signal future closes the QUIC connection with application error
    code 0 and reason "signal HUP"; the failure therefore does close the
    connection rather than silently disabling the signal path. -/
theorem signal_regfail_closes_connection :
    signal_thread_done_without_signal SignalReg.registrationFailed = true ∧
    select_arm_close ClientTask.signalWaiter = some ⟨0, "signal HUP"⟩ := by
  exact ⟨rfl, rfl⟩

/-- Claim C5: whichever of the three client tasks completes first, the
    connection is closed with application error code 0, with reason
    "signal HUP" exactly when the signal waiter completed first and with an
    empty reason when a copy task completed (the select drops the two losing
    futures, and the fall-through path closes the connection on drop). -/
theorem client_close_discipline (t : ClientTask) :
    (effective_close t).errorCode = 0 ∧
    (effective_close t).reason =
      (if t = ClientTask.signalWaiter then "signal HUP" else "") := by
  cases t <;> exact ⟨rfl, rfl⟩

/-- Claim C6: with no server_name in the completed handshake the server routes
    by the string form of the peer IP address; with a server_name present it
    routes by that name. -/
theorem sni_fallback_to_peer_ip (proxy : List (String × SockAddr)) (dflt : SockAddr)
    (ip : Ipv4) :
    accept_route proxy dflt none ip = proxy_lookup proxy dflt ip.render ∧
    ∀ name, accept_route proxy dflt (some name) ip = proxy_lookup proxy dflt name := by
  exact ⟨rfl, fun _ => rfl⟩

/-- Claim C7 counterexample: when resolution succeeds but yields no socket
    addresses, the client does not fail with the unresolved-host error — the
    indexing sock_list[0] panics. -/
theorem resolution_empty_panics :
    resolve_remote (ResolveResult.resolved []) = ResolveOutcome.panicked ∧
    ResolveOutcome.panicked ≠ ResolveOutcome.unresolvedHost := by
  exact ⟨rfl, by decide⟩

/-- Claim C7 amended: the client resolves with default port 4433 when the URL
    has no port; a resolver error yields the unresolved-host failure; a
    successful resolution with at least one address uses the first address
    with no fallback iteration (an empty successful resolution panics). -/
theorem resolution_behaviour (r : ResolveResult) (a : SockAddr) (rest : List SockAddr)
    (h : r = ResolveResult.resolved (a :: rest)) :
    effective_port none = 4433 ∧
    resolve_remote ResolveResult.ioError = ResolveOutcome.unresolvedHost ∧
    resolve_remote r = ResolveOutcome.remote a := by
  subst h
  exact ⟨rfl, rfl, rfl⟩

/-- Claim C7 amended, witness at a concrete input: a singleton resolution
    list yields its only address. -/
theorem resolution_behaviour_witness :
    effective_port none = 4433 ∧
    resolve_remote ResolveResult.ioError = ResolveOutcome.unresolvedHost ∧
    resolve_remote (ResolveResult.resolved [alphaAddr]) = ResolveOutcome.remote alphaAddr :=
  resolution_behaviour (ResolveResult.resolved [alphaAddr]) alphaAddr [] rfl

/-- Claim C8 counterexample: the lookup is exact, not case-insensitive. The
    SNI "Alpha" differs from the key "alpha" only in letter case, yet the
    lookup returns the default, not the entry of "alpha". -/
theorem case_lookup_cex :
    "Alpha".data.map Char.toLower = "alpha".data.map Char.toLower ∧
    "Alpha" ≠ "alpha" ∧
    proxy_lookup [("alpha", alphaAddr)] localhostSsh "Alpha" = localhostSsh ∧
    localhostSsh ≠ alphaAddr := by
  refine ⟨by decide, by decide, rfl, by decide⟩

/-- Claim C8 amended: the route lookup matches keys by exact string equality
    only; an SNI that equals no key exactly (in particular one differing from
    a key only in case) is routed to the effective default. -/
theorem route_lookup_exact_only (proxy : List (String × SockAddr)) (dflt : SockAddr)
    (sni : String) (h : ∀ p ∈ proxy, p.1 ≠ sni) :
    proxy_lookup proxy dflt sni = dflt := by
  induction proxy with
  | nil => rfl
  | cons p rest ih =>
    obtain ⟨k, v⟩ := p
    have hk : k ≠ sni := h (k, v) (List.mem_cons_self (k, v) rest)
    have hr : ∀ q ∈ rest, q.1 ≠ sni := fun q hq => h q (List.mem_cons_of_mem (k, v) hq)
    simp only [proxy_lookup, tableLookup, if_neg hk]
    exact ih hr

/-- Claim C8 amended, witness at a concrete input: SNI "Alpha" against the
    single key "alpha" yields the default address. -/
theorem route_lookup_exact_only_witness :
    proxy_lookup [("alpha", alphaAddr)] localhostSsh "Alpha" = localhostSsh :=
  route_lookup_exact_only [("alpha", alphaAddr)] localhostSsh "Alpha" (by decide)

/-- Claim C9: both transport configurations set a 60 second idle timeout and
    a one second keep-alive interval, and the server configuration limits
    concurrent unidirectional streams to zero, forbidding them. -/
theorem transport_parameters :
    configure_client_transport.max_idle_timeout_ms = some (60 * 1000) ∧
    configure_client_transport.keep_alive_interval_ms = some 1000 ∧
    configure_server_transport.max_idle_timeout_ms = some (60 * 1000) ∧
    configure_server_transport.keep_alive_interval_ms = some 1000 ∧
    uni_streams_forbidden configure_server_transport := by
  exact ⟨rfl, rfl, rfl, rfl, rfl⟩

/-- Claim C10: every failing outcome of the connect call or of the awaited
    handshake makes the client panic through unwrap; no error value is ever
    returned for a failed connect or handshake. -/
theorem connect_failure_panics (r : ConnectResult) (h : r ≠ ConnectResult.connected) :
    connect_step r = ConnectOutcome.panicked ∧
    ∀ msg, connect_step r ≠ ConnectOutcome.errorResult msg := by
  cases r with
  | connectError => exact ⟨rfl, fun msg hmsg => by cases hmsg⟩
  | handshakeError => exact ⟨rfl, fun msg hmsg => by cases hmsg⟩
  | connected => exact absurd rfl h

/-- Claim C10 witness at a concrete input: a failed connect call panics and
    produces no error value. -/
theorem connect_failure_panics_witness :
    connect_step ConnectResult.connectError = ConnectOutcome.panicked ∧
    ∀ msg, connect_step ConnectResult.connectError ≠ ConnectOutcome.errorResult msg :=
  connect_failure_panics ConnectResult.connectError (by decide)

end QuicsshRs
